import Mathlib

/-!
Shallow embedding of the Entex Adventure Vision emulator core
(src/adventure_vision.c) in Lean 4, together with theorems settling the
frozen claims about it.

Modelling conventions:
* C `uint8_t` / `uint16_t` / `uint32_t` values are `Nat`, masked (`% 2^w`
  or `&&& mask`) exactly where the C code wraps or masks.
* C `int` values are `Int`.
* C `float` values are `ℚ` (exact rationals).  The claims touching float
  data (frequency-interval membership, phosphor bounds) are robust under
  the sub-0.001 rounding of IEEE single arithmetic in the relevant code
  paths, so the rational model decides them the same way the C code does.
  A float decoded from a savestate blob is modelled as a finiteness flag
  plus a rational payload (`FloatVal`); NaN/Inf carry `finite := false`.
* C arrays are total functions from `Nat`; every access mirrors the index
  arithmetic (including the source's explicit `&`-masks) of the C code.
* Host-I/O-only state (SDL handles, WAV ring, rewind ring, debugger, OSD
  text) is omitted: no modelled operation reads it back into core state.
-/

/-- Pointwise update of a byte-array model. -/
def updf (f : Nat → Nat) (i v : Nat) : Nat → Nat :=
  fun j => if j = i then v else f j

/-- Pointwise update of a float-array model. -/
def updq (f : Nat → ℚ) (i : Nat) (v : ℚ) : Nat → ℚ :=
  fun j => if j = i then v else f j

/-! ## Intel 8048 CPU state (struct I8048) -/

structure I8048 where
  A : Nat
  PC : Nat
  PSW : Nat
  SP : Nat
  MB : Bool
  C : Bool
  AC : Bool
  F0 : Bool
  F1 : Bool
  BS : Bool
  timer : Nat
  timer_en : Bool
  counter_en : Bool
  timer_ovf : Bool
  tcnti_en : Bool
  t0 : Bool
  t1 : Bool
  P1 : Nat
  P2 : Nat
  BUS : Nat
  irq_en : Bool
  irq_pend : Bool
  in_irq : Bool
  ei_delay : Nat
  iram : Nat → Nat
  irom : Nat → Nat
  erom : Nat → Nat
  xram : Nat → Nat
  cycles : Nat
  tpre : Int

/-- The all-zero CPU state produced by `memset(&av->cpu, 0, sizeof(I8048))`. -/
def zeroCPU : I8048 where
  A := 0
  PC := 0
  PSW := 0
  SP := 0
  MB := false
  C := false
  AC := false
  F0 := false
  F1 := false
  BS := false
  timer := 0
  timer_en := false
  counter_en := false
  timer_ovf := false
  tcnti_en := false
  t0 := false
  t1 := false
  P1 := 0
  P2 := 0
  BUS := 0
  irq_en := false
  irq_pend := false
  in_irq := false
  ei_delay := 0
  iram := fun _ => 0
  irom := fun _ => 0
  erom := fun _ => 0
  xram := fun _ => 0
  cycles := 0
  tpre := 0

/-- Register-file read `*R(c,r)`: `iram[(BS ? 24 : 0) + (r & 7)]`. -/
def getR (c : I8048) (r : Nat) : Nat :=
  c.iram ((if c.BS then 24 else 0) + (r % 8))

/-- Register-file write through `R(c,r)`. -/
def setR (c : I8048) (r v : Nat) : I8048 :=
  { c with iram := updf c.iram ((if c.BS then 24 else 0) + (r % 8)) v }

/-- `bpsw`: rebuild PSW from the flag bits and SP. -/
def bpsw (c : I8048) : I8048 :=
  { c with PSW :=
      (if c.C then 128 else 0) + (if c.AC then 64 else 0) +
      (if c.F0 then 32 else 0) + (if c.BS then 16 else 0) + (c.SP % 8) }

/-- `push8`: push PC and the PSW high nibble at `iram[8 + SP*2]`. -/
def push8 (c : I8048) : I8048 :=
  let a := 8 + c.SP * 2
  { c with
    iram := updf (updf c.iram (a % 64) (c.PC % 256))
                 ((a + 1) % 64) (((c.PC >>> 8) &&& 0x0F) ||| (c.PSW &&& 0xF0))
    SP := (c.SP + 1) % 8 }

/-- `pop_pc` (RET). -/
def pop_pc (c : I8048) : I8048 :=
  let sp := (c.SP + 7) % 8
  let a := 8 + sp * 2
  { c with
    SP := sp
    PC := c.iram (a % 64) ||| ((c.iram ((a + 1) % 64) &&& 0x0F) <<< 8) }

/-- `pop_pc_psw` (RETR): also restores the PSW high nibble and its flags. -/
def pop_pc_psw (c : I8048) : I8048 :=
  let sp := (c.SP + 7) % 8
  let a := 8 + sp * 2
  let psw := (c.iram ((a + 1) % 64) &&& 0xF0) ||| (c.PSW &&& 0x0F)
  { c with
    SP := sp
    PC := c.iram (a % 64) ||| ((c.iram ((a + 1) % 64) &&& 0x0F) <<< 8)
    PSW := psw
    C := (psw >>> 7) &&& 1 = 1
    AC := (psw >>> 6) &&& 1 = 1
    F0 := (psw >>> 5) &&& 1 = 1
    BS := (psw >>> 4) &&& 1 = 1 }

/-- `rom_rd`: internal ROM below 0x400 iff P1 bit 2 is low, else cartridge. -/
def rom_rd (c : I8048) (a : Nat) : Nat :=
  let a := a % 4096
  if a < 1024 ∧ c.P1 &&& 0x04 = 0 then c.irom a else c.erom (a % 4096)

/-- Value half of `ft`: the fetched byte at PC. -/
def ft_val (c : I8048) : Nat := rom_rd c c.PC

/-- Advance half of `ft`: PC increments as a full 12-bit counter. -/
def ft_adv (c : I8048) : I8048 := { c with PC := (c.PC + 1) % 4096 }

/-- `xram_rd`: external RAM read; address is `((P1 & 3) << 8) | addr`
with `addr` truncated to the `uint8_t` parameter type. -/
def xram_rd (c : I8048) (addr : Nat) : Nat :=
  c.xram (((c.P1 &&& 0x03) <<< 8 ||| (addr % 256)) &&& 1023)

/-- `xram_wr`: external RAM write at the same banked address. -/
def xram_wr (c : I8048) (addr v : Nat) : I8048 :=
  { c with xram := updf c.xram (((c.P1 &&& 0x03) <<< 8 ||| (addr % 256)) &&& 1023) (v % 256) }

/-! ## COP411L sound engine -/

/-- Effect step descriptor (struct SndStep). -/
structure SndStep where
  freq : ℚ
  noise : Bool
  dur_ms : Int
  volume : ℚ

structure COP411L where
  ctrl_loop : Nat
  ctrl_vol : Nat
  ctrl_fast : Nat
  proto_state : Nat
  proto_hi : Nat
  active : Bool
  is_noise : Bool
  force_loop : Bool
  force_no_loop : Bool
  command : Nat
  steps : Nat → SndStep
  step_count : Int
  cur_step : Int
  step_samples_left : Int
  cur_freq : ℚ
  phase_acc : Nat
  phase_inc : Nat
  slide_freq_start : ℚ
  slide_freq_end : ℚ
  slide_progress : ℚ
  lfsr : Nat
  seg1_vol : ℚ
  seg2_vol : ℚ
  cur_vol : ℚ
  segment : Int
  seg_samples_total : Int
  seg_samples_left : Int
  chain_cmd : Nat

/-- Hardware-measured pure-tone frequency table `cop411_note_freq[16]`. -/
def cop411_note_freq (i : Nat) : ℚ :=
  if i = 0 then 23923/100 else
  if i = 1 then 25303/100 else
  if i = 2 then 26853/100 else
  if i = 3 then 28604/100 else
  if i = 4 then 30248/100 else
  if i = 5 then 32092/100 else
  if i = 6 then 33738/100 else
  if i = 7 then 36049/100 else
  if i = 8 then 38138/100 else
  if i = 9 then 40485/100 else
  if i = 10 then 42444/100 else
  if i = 11 then 45372/100 else
  if i = 12 then 47846/100 else
  if i = 13 then 50607/100 else
  if i = 14 then 53705/100 else
  57208/100

/-- `freq_to_phase_inc`: phase increment for a frequency, truncated to uint32. -/
def freq_to_phase_inc (freq : ℚ) : Nat :=
  if freq ≤ 0 then 0 else (Rat.floor ((freq / 44100) * 4294967296)).toNat % 2 ^ 32

/-- `cop411_init`: zeroed engine with a non-zero LFSR seed. -/
def cop411_init : COP411L where
  ctrl_loop := 0
  ctrl_vol := 0
  ctrl_fast := 0
  proto_state := 0
  proto_hi := 0
  active := false
  is_noise := false
  force_loop := false
  force_no_loop := false
  command := 0
  steps := fun _ => ⟨0, false, 0, 0⟩
  step_count := 0
  cur_step := 0
  step_samples_left := 0
  cur_freq := 0
  phase_acc := 0
  phase_inc := 0
  slide_freq_start := 0
  slide_freq_end := 0
  slide_progress := 0
  lfsr := 0x7FFF
  seg1_vol := 1
  seg2_vol := 1/2
  cur_vol := 0
  segment := 0
  seg_samples_total := 0
  seg_samples_left := 0
  chain_cmd := 0

/-- `cop411_update_ctrl_vol`: volume pair from control-register bits 1-2. -/
def cop411_update_ctrl_vol (snd : COP411L) : COP411L :=
  if snd.ctrl_vol = 0 then { snd with seg1_vol := 2/5, seg2_vol := 2/5 }
  else if snd.ctrl_vol = 1 then { snd with seg1_vol := 1, seg2_vol := 2/5 }
  else { snd with seg1_vol := 1, seg2_vol := 1 }

/-- `cop411_speed`: duration multiplier from the fast bit. -/
def cop411_speed (snd : COP411L) : ℚ :=
  if snd.ctrl_fast ≠ 0 then 1/2 else 1

/-- Truncation of a non-negative rational duration to `int`, as the C
cast `(int)` does for the non-negative products appearing in the scripts. -/
def durI (q : ℚ) : Int := Rat.floor q

/-- Pitch table local to command 3. -/
def pitch3 (i : Nat) : ℚ :=
  if i = 0 then 1000 else if i = 1 then 800 else if i = 2 then 600 else
  if i = 3 then 400 else 250

/-- After the steps of an effect are built, start its first step
(the tail of `cop411_build_effect`). -/
def start_first_step (snd : COP411L) : COP411L :=
  if 0 < snd.step_count then
    let s := snd.steps 0
    let left := s.dur_ms * 44100 / 1000
    { snd with
      cur_freq := s.freq
      is_noise := s.noise
      cur_vol := s.volume
      phase_inc := freq_to_phase_inc s.freq
      step_samples_left := if left < 1 then 1 else left }
  else snd

/-- `cop411_build_effect`: build the step table for commands 1-0xD. -/
def cop411_build_effect (snd : COP411L) (cmd : Nat) (_data : Nat) : COP411L :=
  let snd := { snd with
    command := cmd
    active := true
    cur_step := 0
    step_count := 0
    chain_cmd := 0
    force_loop := false
    force_no_loop := false
    segment := 0
    phase_acc := 0 }
  let spd := cop411_speed snd
  let snd :=
    if cmd = 0x01 then
      { snd with
        force_loop := true
        step_count := 1
        steps := fun i => if i = 0 then ⟨800, true, durI (200 * spd), 8/10⟩ else snd.steps i }
    else if cmd = 0x02 then
      { snd with
        step_count := 8
        steps := fun i => if i < 8 then
            ⟨1200 - (i : ℚ) * (900/8), false, durI (25 * spd), 1 - (i : ℚ) * (8/100)⟩
          else snd.steps i }
    else if cmd = 0x03 then
      let snd := { snd with
        step_count := 5
        steps := fun i => if i < 5 then
            ⟨pitch3 i, true, durI (60 * spd), 1 - (i : ℚ) * (12/100)⟩
          else snd.steps i }
      if snd.ctrl_loop ≠ 0 then { snd with chain_cmd := 0x02 } else snd
    else if cmd = 0x04 then
      { snd with
        step_count := 8
        steps := fun i => if i < 8 then
            ⟨300 + (i : ℚ) * (900/8), false, durI (30 * spd), 7/10 + (i : ℚ) * (4/100)⟩
          else snd.steps i }
    else if cmd = 0x05 then
      let snd := { snd with
        step_count := 10
        steps := fun i => if i < 10 then
            ⟨200 + (i : ℚ) * (600/10), true, durI (((40 : ℚ) + (i : ℚ) * 8) * spd),
             6/10 + (i : ℚ) * (4/100)⟩
          else snd.steps i }
      { snd with force_loop := snd.ctrl_loop ≠ 0 }
    else if cmd = 0x06 then
      { snd with
        force_no_loop := true
        step_count := 12
        steps := fun i => if i < 12 then
            ⟨1200 - (i : ℚ) * (900/12), true, durI (((30 : ℚ) + (i : ℚ) * 10) * spd),
             1 - (i : ℚ) * (6/100)⟩
          else snd.steps i }
    else if cmd = 0x07 then
      { snd with
        step_count := 6
        steps := fun i => if i < 6 then
            ⟨800 - (i : ℚ) * (500/6), false, durI (30 * spd), 9/10 - (i : ℚ) * (1/10)⟩
          else snd.steps i }
    else if cmd = 0x08 then
      { snd with
        step_count := 6
        steps := fun i => if i < 6 then
            ⟨400 + (i : ℚ) * (800/6), false, durI (12 * spd), 8/10⟩
          else snd.steps i }
    else if cmd = 0x09 then
      { snd with
        step_count := 8
        steps := fun i => if i < 8 then
            ⟨300 + (i : ℚ) * (600/8), false, durI (18 * spd), 85/100⟩
          else snd.steps i }
    else if 0x0A ≤ cmd ∧ cmd ≤ 0x0D then
      { snd with
        step_count := 1
        steps := fun i => if i = 0 then
            ⟨300 + ((cmd - 0x0A : Nat) : ℚ) * 100, false, durI (50 * spd), 1/2⟩
          else snd.steps i }
    else { snd with active := false }
  if snd.active then start_first_step snd else snd

/-- `cop411_start_tone`: pure-tone playback for commands 0xE/0xF. -/
def cop411_start_tone (snd : COP411L) (note : Nat) : COP411L :=
  let snd := { snd with
    active := true
    is_noise := false
    command := 0x0E
    cur_step := 0
    step_count := 0
    chain_cmd := 0
    force_loop := false
    force_no_loop := false }
  let freq := cop411_note_freq (note &&& 0x0F)
  let snd := { snd with cur_freq := freq, phase_inc := freq_to_phase_inc freq, segment := 0 }
  let snd := cop411_update_ctrl_vol snd
  let snd := { snd with cur_vol := snd.seg1_vol }
  let seg1_ms : Int := if snd.ctrl_fast ≠ 0 then 46 else 117
  let tot := seg1_ms * 44100 / 1000
  { snd with seg_samples_total := tot, seg_samples_left := tot }

/-- `cop411_command`: dispatch one reconstructed command byte. -/
def cop411_command (snd : COP411L) (cmd_byte : Nat) : COP411L :=
  let cmd := (cmd_byte >>> 4) &&& 0x0F
  let data := cmd_byte &&& 0x0F
  if cmd = 0 then
    let snd := { snd with
      ctrl_fast := data &&& 0x01
      ctrl_vol := (data >>> 1) &&& 0x03
      ctrl_loop := (data >>> 3) &&& 0x01 }
    let snd := cop411_update_ctrl_vol snd
    { snd with active := false }
  else if cmd = 0x0E ∨ cmd = 0x0F then
    cop411_start_tone snd data
  else
    cop411_build_effect snd cmd data

/-! ## Display pipeline -/

structure AVDisp where
  phosphor : Nat → ℚ
  col_data : Nat → Nat → Nat
  cols_captured : Int
  led_reg : Nat → Nat
  led_col : Int
  led_active : Bool

/-- `disp_capture_column`: snapshot one column from video RAM. -/
def disp_capture_column (d : AVDisp) (xram : Nat → Nat) (col : Int) : AVDisp :=
  if ¬(0 ≤ col ∧ col < 150) then d
  else
    let c := col.toNat
    let bank := 1 + c / 50
    let offset := 6 + (c % 50) * 5
    let base := bank * 256 + offset
    let d :=
      if base + 4 < 1024 then
        { d with col_data := fun i j =>
            if i = c ∧ j < 5 then xram (base + j) else d.col_data i j }
      else d
    if d.cols_captured ≤ col then { d with cols_captured := col + 1 } else d

/-- `led_reg_decode`: P2[7:5] three-bit code to LED register index. -/
def led_reg_decode (p2 : Nat) : Int :=
  match (p2 >>> 5) &&& 7 with
  | 4 => 0
  | 2 => 1
  | 6 => 2
  | 1 => 3
  | 5 => 4
  | _ => -1

/-- `disp_latch_led_column`: commit the LED registers on a P2.4 rising edge. -/
def disp_latch_led_column (d : AVDisp) : AVDisp :=
  let d :=
    if 0 ≤ d.led_col ∧ d.led_col < 150 then
      let c := d.led_col.toNat
      let d := { d with col_data := fun i j =>
          if i = c ∧ j < 5 then d.led_reg j else d.col_data i j }
      if d.cols_captured ≤ d.led_col then { d with cols_captured := d.led_col + 1 } else d
    else d
  { d with led_col := d.led_col + 1, led_active := true }

/-- Decay-and-floor of a single phosphor value (phase 1 of `disp_update`). -/
def decay_px (decay v : ℚ) : ℚ :=
  if v * decay < 1/100 then 0 else v * decay

/-- Phase 2 of `disp_update`: light the pixels of the captured columns. -/
def light_cols (d : AVDisp) (cols : Nat) (f : Nat → ℚ) : Nat → ℚ :=
  (List.range cols).foldl (fun f col =>
    (List.range 5).foldl (fun f bi =>
      (List.range 8).foldl (fun f bit =>
        let y := (4 - bi) * 8 + (7 - bit)
        if 40 ≤ y then f
        else if d.col_data col bi &&& (1 <<< bit) = 0 then updq f (col + y * 150) 1
        else f) f) f) f

/-- `disp_update`: end-of-frame phosphor decay then set-lit. -/
def disp_update (d : AVDisp) (decay : ℚ) : AVDisp :=
  let ph1 : Nat → ℚ := fun i => if i < 150 * 40 then decay_px decay (d.phosphor i) else d.phosphor i
  let cols : Nat := (min d.cols_captured 150).toNat
  { d with phosphor := light_cols d cols ph1, cols_captured := 0 }

/-! ## System state -/

structure AVInput where
  u : Bool
  d : Bool
  l : Bool
  r : Bool
  b1 : Bool
  b2 : Bool
  b3 : Bool
  b4 : Bool

def noInput : AVInput := ⟨false, false, false, false, false, false, false, false⟩

structure AVState where
  cpu : I8048
  disp : AVDisp
  snd : COP411L
  input : AVInput
  snd_volume : Int
  prev_p2 : Nat
  frame_count : Int
  cfg_phosphor : ℚ
  midframe_scan : Bool
  t1_pulse_start : Int
  t1_pulse_end : Int
  disp_sync_cycle : Int
  disp_sync_seen : Bool

/-- `av_led_latch`: MOVX-read side effect into the selected LED register. -/
def av_led_latch (av : AVState) (p2 data : Nat) : AVState :=
  let ri := led_reg_decode p2
  if 0 ≤ ri then
    { av with disp := { av.disp with led_reg := updf av.disp.led_reg ri.toNat data } }
  else av

/-- `av_port_write`: port-write observer (P2.4 strobe + sound protocol). -/
def av_port_write (av : AVState) (port val : Nat) : AVState :=
  if port = 0 then { av with cpu := { av.cpu with BUS := val } }
  else if port = 2 then
    let av :=
      if val &&& 0x10 ≠ 0 ∧ av.prev_p2 &&& 0x10 = 0 then
        { av with disp := disp_latch_led_column av.disp }
      else av
    let av := { av with prev_p2 := val }
    if av.snd.proto_state = 0 ∧ val = 0xC0 then
      { av with snd := { av.snd with proto_state := 1, proto_hi := 0 } }
    else if av.snd.proto_state = 1 then
      { av with snd := { av.snd with proto_hi := (val >>> 4) &&& 0x0F, proto_state := 2 } }
    else if av.snd.proto_state = 2 then
      if val = 0 then
        { av with snd := { cop411_command av.snd (av.snd.proto_hi <<< 4) with proto_state := 0 } }
      else
        let lo := (val >>> 4) &&& 0x0F
        { av with snd :=
            { cop411_command av.snd ((av.snd.proto_hi <<< 4) ||| lo) with proto_state := 3 } }
    else if av.snd.proto_state = 3 then
      if val = 0 then { av with snd := { av.snd with proto_state := 0 } } else av
    else av
  else av

/-- `av_port_read`: BUS pulled high; P1 masked by the button matrix; P2 shadow. -/
def av_port_read (av : AVState) (port : Nat) : Nat :=
  if port = 0 then 0xFF
  else if port = 1 then
    let ext := 0xFF
    let ext := if av.input.b1 then ext &&& 0xCF else ext
    let ext := if av.input.b2 then ext &&& 0xAF else ext
    let ext := if av.input.b3 then ext &&& 0xF7 else ext
    let ext := if av.input.b4 then ext &&& 0x6F else ext
    let ext := if av.input.u then ext &&& 0xDF else ext
    let ext := if av.input.d then ext &&& 0xEF else ext
    let ext := if av.input.r then ext &&& 0xBF else ext
    let ext := if av.input.l then ext &&& 0x7F else ext
    av.cpu.P1 &&& ext
  else if port = 2 then av.cpu.P2
  else 0xFF

/-- XRAM contents right after power-up: banks 1-3 filled with 0xFF. -/
def initXram : Nat → Nat := fun i => if 0x100 ≤ i ∧ i < 0x400 then 0xFF else 0

/-- `av_init`: power-up state. -/
def av_init : AVState where
  cpu := { zeroCPU with P1 := 0xFB, P2 := 0xFF, t0 := true, xram := initXram }
  disp :=
    { phosphor := fun _ => 0
      col_data := fun _ _ => 0
      cols_captured := 0
      led_reg := fun _ => 0xFF
      led_col := 0
      led_active := false }
  snd := cop411_init
  input := noInput
  snd_volume := 7
  prev_p2 := 0
  frame_count := 0
  cfg_phosphor := 45/100
  midframe_scan := true
  t1_pulse_start := 200
  t1_pulse_end := 400
  disp_sync_cycle := 0
  disp_sync_seen := false

/-- `av_reset`: soft reset — registers and RAM clear, ROMs and the COP411L
control register survive, the phosphor buffer clears. -/
def av_reset (av : AVState) : AVState :=
  { av with
    cpu :=
      { zeroCPU with
        P1 := 0xFB
        P2 := 0xFF
        t0 := true
        xram := initXram
        irom := av.cpu.irom
        erom := av.cpu.erom }
    input := noInput
    disp := { av.disp with phosphor := fun _ => 0 }
    snd := cop411_update_ctrl_vol
      { cop411_init with
        ctrl_loop := av.snd.ctrl_loop
        ctrl_vol := av.snd.ctrl_vol
        ctrl_fast := av.snd.ctrl_fast }
    frame_count := 0 }


/-! ## MCS-48 interpreter (`i8048_exec`) -/

/-- The state action of one fetched opcode `op` (the big `switch` of
`i8048_exec`).  Each branch lists exactly the case labels of the C switch;
the cycle count `cy` assigned in each C case is split out into
`opcode_cycles` below, branch for branch, since no case reads `cy`. -/
def exec_op (op : Nat) (s : AVState) : AVState :=
  let c := s.cpu
  if op = 0x00 then (s) /- NOP -/
  /- MOV -/
  else if op = 0xF8 ∨ op = 0xF9 ∨ op = 0xFA ∨ op = 0xFB ∨ op = 0xFC ∨ op = 0xFD ∨ op = 0xFE ∨ op = 0xFF then
    ({ s with cpu := { c with A := getR c (op % 8) } })
  else if op = 0xA8 ∨ op = 0xA9 ∨ op = 0xAA ∨ op = 0xAB ∨ op = 0xAC ∨ op = 0xAD ∨ op = 0xAE ∨ op = 0xAF then
    ({ s with cpu := setR c (op % 8) c.A })
  else if op = 0x23 then
    let t := ft_val c
    ({ s with cpu := { ft_adv c with A := t } })
  else if op = 0xB8 ∨ op = 0xB9 ∨ op = 0xBA ∨ op = 0xBB ∨ op = 0xBC ∨ op = 0xBD ∨ op = 0xBE ∨ op = 0xBF then
    let t := ft_val c
    ({ s with cpu := setR (ft_adv c) (op % 8) t })
  else if op = 0xF0 ∨ op = 0xF1 then
    ({ s with cpu := { c with A := c.iram (getR c (op % 2) % 64) } })
  else if op = 0xA0 ∨ op = 0xA1 then
    ({ s with cpu := { c with iram := updf c.iram (getR c (op % 2) % 64) c.A } })
  else if op = 0xB0 ∨ op = 0xB1 then
    let t := ft_val c
    let c := ft_adv c
    ({ s with cpu := { c with iram := updf c.iram (getR c (op % 2) % 64) t } })
  /- XCH / XCHD -/
  else if op = 0x28 ∨ op = 0x29 ∨ op = 0x2A ∨ op = 0x2B ∨ op = 0x2C ∨ op = 0x2D ∨ op = 0x2E ∨ op = 0x2F then
    let t := c.A
    let v := getR c (op % 8)
    ({ s with cpu := setR { c with A := v } (op % 8) t })
  else if op = 0x20 ∨ op = 0x21 then
    let a := getR c (op % 2) % 64
    let t := c.iram a
    ({ s with cpu := { c with iram := updf c.iram a c.A, A := t } })
  else if op = 0x30 ∨ op = 0x31 then
    let a := getR c (op % 2) % 64
    let t := c.A &&& 0xF
    let ia := c.iram a
    ({ s with cpu := { c with
        A := (c.A &&& 0xF0) ||| (ia &&& 0xF)
        iram := updf c.iram a ((ia &&& 0xF0) ||| t) } })
  /- ADD -/
  else if op = 0x68 ∨ op = 0x69 ∨ op = 0x6A ∨ op = 0x6B ∨ op = 0x6C ∨ op = 0x6D ∨ op = 0x6E ∨ op = 0x6F then
    let t := getR c (op % 8)
    let t16 := c.A + t
    ({ s with cpu := { c with
        AC := decide (15 < c.A % 16 + t % 16)
        C := decide (255 < t16)
        A := t16 % 256 } })
  else if op = 0x03 then
    let t := ft_val c
    let c := ft_adv c
    let t16 := c.A + t
    ({ s with cpu := { c with
        AC := decide (15 < c.A % 16 + t % 16)
        C := decide (255 < t16)
        A := t16 % 256 } })
  else if op = 0x60 ∨ op = 0x61 then
    let t := c.iram (getR c (op % 2) % 64)
    let t16 := c.A + t
    ({ s with cpu := { c with
        AC := decide (15 < c.A % 16 + t % 16)
        C := decide (255 < t16)
        A := t16 % 256 } })
  /- ADDC -/
  else if op = 0x78 ∨ op = 0x79 ∨ op = 0x7A ∨ op = 0x7B ∨ op = 0x7C ∨ op = 0x7D ∨ op = 0x7E ∨ op = 0x7F then
    let t := getR c (op % 8)
    let cin := if c.C then 1 else 0
    let t16 := c.A + t + cin
    ({ s with cpu := { c with
        AC := decide (15 < c.A % 16 + t % 16 + cin)
        C := decide (255 < t16)
        A := t16 % 256 } })
  else if op = 0x13 then
    let t := ft_val c
    let c := ft_adv c
    let cin := if c.C then 1 else 0
    let t16 := c.A + t + cin
    ({ s with cpu := { c with
        AC := decide (15 < c.A % 16 + t % 16 + cin)
        C := decide (255 < t16)
        A := t16 % 256 } })
  else if op = 0x70 ∨ op = 0x71 then
    let t := c.iram (getR c (op % 2) % 64)
    let cin := if c.C then 1 else 0
    let t16 := c.A + t + cin
    ({ s with cpu := { c with
        AC := decide (15 < c.A % 16 + t % 16 + cin)
        C := decide (255 < t16)
        A := t16 % 256 } })
  /- ANL / ORL / XRL -/
  else if op = 0x58 ∨ op = 0x59 ∨ op = 0x5A ∨ op = 0x5B ∨ op = 0x5C ∨ op = 0x5D ∨ op = 0x5E ∨ op = 0x5F then
    ({ s with cpu := { c with A := c.A &&& getR c (op % 8) } })
  else if op = 0x53 then
    let t := ft_val c
    ({ s with cpu := { ft_adv c with A := c.A &&& t } })
  else if op = 0x50 ∨ op = 0x51 then
    ({ s with cpu := { c with A := c.A &&& c.iram (getR c (op % 2) % 64) } })
  else if op = 0x48 ∨ op = 0x49 ∨ op = 0x4A ∨ op = 0x4B ∨ op = 0x4C ∨ op = 0x4D ∨ op = 0x4E ∨ op = 0x4F then
    ({ s with cpu := { c with A := c.A ||| getR c (op % 8) } })
  else if op = 0x43 then
    let t := ft_val c
    ({ s with cpu := { ft_adv c with A := c.A ||| t } })
  else if op = 0x40 ∨ op = 0x41 then
    ({ s with cpu := { c with A := c.A ||| c.iram (getR c (op % 2) % 64) } })
  else if op = 0xD8 ∨ op = 0xD9 ∨ op = 0xDA ∨ op = 0xDB ∨ op = 0xDC ∨ op = 0xDD ∨ op = 0xDE ∨ op = 0xDF then
    ({ s with cpu := { c with A := c.A ^^^ getR c (op % 8) } })
  else if op = 0xD3 then
    let t := ft_val c
    ({ s with cpu := { ft_adv c with A := c.A ^^^ t } })
  else if op = 0xD0 ∨ op = 0xD1 then
    ({ s with cpu := { c with A := c.A ^^^ c.iram (getR c (op % 2) % 64) } })
  /- INC / DEC / CLR / CPL -/
  else if op = 0x17 then ({ s with cpu := { c with A := (c.A + 1) % 256 } })
  else if op = 0x18 ∨ op = 0x19 ∨ op = 0x1A ∨ op = 0x1B ∨ op = 0x1C ∨ op = 0x1D ∨ op = 0x1E ∨ op = 0x1F then
    ({ s with cpu := setR c (op % 8) ((getR c (op % 8) + 1) % 256) })
  else if op = 0x10 ∨ op = 0x11 then
    let a := getR c (op % 2) % 64
    ({ s with cpu := { c with iram := updf c.iram a ((c.iram a + 1) % 256) } })
  else if op = 0x07 then ({ s with cpu := { c with A := (c.A + 255) % 256 } })
  else if op = 0xC8 ∨ op = 0xC9 ∨ op = 0xCA ∨ op = 0xCB ∨ op = 0xCC ∨ op = 0xCD ∨ op = 0xCE ∨ op = 0xCF then
    ({ s with cpu := setR c (op % 8) ((getR c (op % 8) + 255) % 256) })
  else if op = 0x27 then ({ s with cpu := { c with A := 0 } })
  else if op = 0x37 then ({ s with cpu := { c with A := c.A % 256 ^^^ 0xFF } })
  /- DA / SWAP / rotates -/
  else if op = 0x57 then
    let p :=
      if 9 < (c.A &&& 0xF) ∨ c.AC then
        let t := c.A
        let a := (c.A + 6) % 256
        (a, if a < t then true else c.C)
      else (c.A, c.C)
    let q :=
      if 9 < p.1 >>> 4 ∨ p.2 = true then ((p.1 + 0x60) % 256, true) else p
    ({ s with cpu := { c with A := q.1, C := q.2 } })
  else if op = 0x47 then
    ({ s with cpu := { c with A := ((c.A &&& 0xF) <<< 4) ||| ((c.A >>> 4) &&& 0xF) } })
  else if op = 0xE7 then ({ s with cpu := { c with A := ((c.A <<< 1) ||| (c.A >>> 7)) % 256 } })
  else if op = 0xF7 then
    let t := c.C
    ({ s with cpu := { c with
        C := c.A >>> 7 &&& 1 = 1
        A := ((c.A <<< 1) ||| (if t then 1 else 0)) % 256 } })
  else if op = 0x77 then ({ s with cpu := { c with A := ((c.A >>> 1) ||| (c.A <<< 7)) % 256 } })
  else if op = 0x67 then
    let t := c.C
    ({ s with cpu := { c with
        C := c.A &&& 1 = 1
        A := (c.A % 256 >>> 1) ||| (if t then 128 else 0) } })
  /- flags -/
  else if op = 0x97 then ({ s with cpu := { c with C := false } })
  else if op = 0xA7 then ({ s with cpu := { c with C := !c.C } })
  else if op = 0x85 then ({ s with cpu := { c with F0 := false } })
  else if op = 0x95 then ({ s with cpu := { c with F0 := !c.F0 } })
  else if op = 0xA5 then ({ s with cpu := { c with F1 := false } })
  else if op = 0xB5 then ({ s with cpu := { c with F1 := !c.F1 } })
  else if op = 0xC5 then ({ s with cpu := { c with BS := false } })
  else if op = 0xD5 then ({ s with cpu := { c with BS := true } })
  else if op = 0xE5 then ({ s with cpu := { c with MB := false } })
  else if op = 0xF5 then ({ s with cpu := { c with MB := true } })
  /- JMP / JMPP -/
  else if op = 0x04 ∨ op = 0x24 ∨ op = 0x44 ∨ op = 0x64 ∨ op = 0x84 ∨ op = 0xA4 ∨ op = 0xC4 ∨ op = 0xE4 then
    let t := ft_val c
    let c := ft_adv c
    let pc := ((op &&& 0xE0) <<< 3) ||| t
    ({ s with cpu := { c with PC := if c.MB then pc ||| 0x800 else pc } })
  else if op = 0xB3 then
    ({ s with cpu := { c with PC := (c.PC &&& 0xF00) ||| rom_rd c ((c.PC &&& 0xF00) ||| c.A) } })
  /- DJNZ -/
  else if op = 0xE8 ∨ op = 0xE9 ∨ op = 0xEA ∨ op = 0xEB ∨ op = 0xEC ∨ op = 0xED ∨ op = 0xEE ∨ op = 0xEF then
    let t := ft_val c
    let c := ft_adv c
    let v := (getR c (op % 8) + 255) % 256
    let c := setR c (op % 8) v
    ({ s with cpu := if v ≠ 0 then { c with PC := (c.PC &&& 0xF00) ||| t } else c })
  /- conditional branches -/
  else if op = 0xF6 then
    let t := ft_val c
    let c := ft_adv c
    ({ s with cpu := if c.C then { c with PC := (c.PC &&& 0xF00) ||| t } else c })
  else if op = 0xE6 then
    let t := ft_val c
    let c := ft_adv c
    ({ s with cpu := if !c.C then { c with PC := (c.PC &&& 0xF00) ||| t } else c })
  else if op = 0xC6 then
    let t := ft_val c
    let c := ft_adv c
    ({ s with cpu := if c.A = 0 then { c with PC := (c.PC &&& 0xF00) ||| t } else c })
  else if op = 0x96 then
    let t := ft_val c
    let c := ft_adv c
    ({ s with cpu := if c.A ≠ 0 then { c with PC := (c.PC &&& 0xF00) ||| t } else c })
  else if op = 0x26 then
    let t := ft_val c
    let c := ft_adv c
    ({ s with cpu := if !c.t0 then { c with PC := (c.PC &&& 0xF00) ||| t } else c })
  else if op = 0x36 then
    let t := ft_val c
    let c := ft_adv c
    ({ s with cpu := if c.t0 then { c with PC := (c.PC &&& 0xF00) ||| t } else c })
  else if op = 0x46 then
    let t := ft_val c
    let c := ft_adv c
    ({ s with cpu := if !c.t1 then { c with PC := (c.PC &&& 0xF00) ||| t } else c })
  else if op = 0x56 then
    let t := ft_val c
    let c := ft_adv c
    ({ s with cpu := if c.t1 then { c with PC := (c.PC &&& 0xF00) ||| t } else c })
  else if op = 0xB6 then
    let t := ft_val c
    let c := ft_adv c
    ({ s with cpu := if c.F0 then { c with PC := (c.PC &&& 0xF00) ||| t } else c })
  else if op = 0x76 then
    let t := ft_val c
    let c := ft_adv c
    ({ s with cpu := if c.F1 then { c with PC := (c.PC &&& 0xF00) ||| t } else c })
  else if op = 0x16 then
    let t := ft_val c
    let c := ft_adv c
    ({ s with cpu :=
        if c.timer_ovf then { c with PC := (c.PC &&& 0xF00) ||| t, timer_ovf := false }
        else c })
  else if op = 0x86 then
    ({ s with cpu := ft_adv c })
  else if op = 0x12 ∨ op = 0x32 ∨ op = 0x52 ∨ op = 0x72 ∨ op = 0x92 ∨ op = 0xB2 ∨ op = 0xD2 ∨ op = 0xF2 then
    let t := ft_val c
    let c := ft_adv c
    ({ s with cpu :=
        if c.A &&& (1 <<< ((op >>> 5) &&& 7)) ≠ 0 then { c with PC := (c.PC &&& 0xF00) ||| t }
        else c })
  /- CALL / RET / RETR -/
  else if op = 0x14 ∨ op = 0x34 ∨ op = 0x54 ∨ op = 0x74 ∨ op = 0x94 ∨ op = 0xB4 ∨ op = 0xD4 ∨ op = 0xF4 then
    let t := ft_val c
    let c := push8 (bpsw (ft_adv c))
    let pc := ((op &&& 0xE0) <<< 3) ||| t
    ({ s with cpu := { c with PC := if c.MB then pc ||| 0x800 else pc } })
  else if op = 0x83 then ({ s with cpu := pop_pc c })
  else if op = 0x93 then
    ({ s with cpu := { pop_pc_psw c with irq_en := true, in_irq := false } })
  /- interrupts & timer -/
  else if op = 0x05 then ({ s with cpu := { c with irq_en := true, ei_delay := 1 } })
  else if op = 0x15 then ({ s with cpu := { c with irq_en := false } })
  else if op = 0x25 then ({ s with cpu := { c with tcnti_en := true } })
  else if op = 0x35 then ({ s with cpu := { c with tcnti_en := false } })
  else if op = 0x55 then
    ({ s with cpu := { c with timer_en := true, counter_en := false, tpre := 0 } })
  else if op = 0x45 then
    ({ s with cpu := { c with counter_en := true, timer_en := false, tpre := 0 } })
  else if op = 0x65 then
    ({ s with cpu := { c with timer_en := false, counter_en := false, tpre := 0 } })
  else if op = 0x42 then ({ s with cpu := { c with A := c.timer } })
  else if op = 0x62 then ({ s with cpu := { c with timer := c.A, tpre := 0 } })
  /- PSW -/
  else if op = 0xC7 then
    let c := bpsw c
    ({ s with cpu := { c with A := c.PSW } })
  else if op = 0xD7 then
    ({ s with cpu := { c with
        PSW := c.A
        C := (c.A >>> 7) &&& 1 = 1
        AC := (c.A >>> 6) &&& 1 = 1
        F0 := (c.A >>> 5) &&& 1 = 1
        BS := (c.A >>> 4) &&& 1 = 1
        SP := c.A &&& 7 } })
  /- I/O ports -/
  else if op = 0x08 then ({ s with cpu := { c with A := av_port_read s 0 } })
  else if op = 0x02 then
    let s := { s with cpu := { c with BUS := c.A } }
    (av_port_write s 0 c.A)
  else if op = 0x88 then
    let t := ft_val c
    let c := ft_adv c
    let bus := c.BUS ||| t
    let s := { s with cpu := { c with BUS := bus } }
    (av_port_write s 0 bus)
  else if op = 0x98 then
    let t := ft_val c
    let c := ft_adv c
    let bus := c.BUS &&& t
    let s := { s with cpu := { c with BUS := bus } }
    (av_port_write s 0 bus)
  else if op = 0x09 then ({ s with cpu := { c with A := av_port_read s 1 } })
  else if op = 0x0A then ({ s with cpu := { c with A := av_port_read s 2 } })
  else if op = 0x39 then
    let s := { s with cpu := { c with P1 := c.A } }
    (av_port_write s 1 c.A)
  else if op = 0x3A then
    let s := { s with cpu := { c with P2 := c.A } }
    (av_port_write s 2 c.A)
  else if op = 0x99 then
    let t := ft_val c
    let c := ft_adv c
    let p1 := c.P1 &&& t
    let s := { s with cpu := { c with P1 := p1 } }
    (av_port_write s 1 p1)
  else if op = 0x9A then
    let t := ft_val c
    let c := ft_adv c
    let p2 := c.P2 &&& t
    let s := { s with cpu := { c with P2 := p2 } }
    (av_port_write s 2 p2)
  else if op = 0x89 then
    let t := ft_val c
    let c := ft_adv c
    let p1 := c.P1 ||| t
    let s := { s with cpu := { c with P1 := p1 } }
    (av_port_write s 1 p1)
  else if op = 0x8A then
    let t := ft_val c
    let c := ft_adv c
    let p2 := c.P2 ||| t
    let s := { s with cpu := { c with P2 := p2 } }
    (av_port_write s 2 p2)
  /- MOVX: external RAM with the LED-latch read side effect -/
  else if op = 0x80 ∨ op = 0x81 then
    let xval := xram_rd c (getR c (op % 2))
    let s := { s with cpu := { c with A := xval } }
    (av_led_latch s c.P2 xval)
  else if op = 0x90 ∨ op = 0x91 then
    ({ s with cpu := xram_wr c (getR c (op % 2)) c.A })
  /- MOVP / MOVP3 -/
  else if op = 0xA3 then
    ({ s with cpu := { c with A := rom_rd c ((c.PC &&& 0xF00) ||| c.A) } })
  else if op = 0xE3 then
    ({ s with cpu := { c with A := rom_rd c (0x300 ||| c.A) } })
  /- MOVD (8243 expander, absent) -/
  else if op = 0x0C ∨ op = 0x0D ∨ op = 0x0E ∨ op = 0x0F then
    ({ s with cpu := { c with A := 0x0F } })
  else if op = 0x3C ∨ op = 0x3D ∨ op = 0x3E ∨ op = 0x3F then (s)
  else if op = 0x8C ∨ op = 0x8D ∨ op = 0x8E ∨ op = 0x8F then (s)
  else if op = 0x9C ∨ op = 0x9D ∨ op = 0x9E ∨ op = 0x9F then (s)
  else if op = 0x75 then (s) /- ENT0 CLK -/
  else (s) /- unknown opcode: log and continue -/


/-- The opcodes whose case in the C switch of `i8048_exec` sets `cy = 2`. -/
def two_cycle_ops : List Nat :=
  [0x23, 0xB8, 0xB9, 0xBA, 0xBB, 0xBC, 0xBD, 0xBE,
   0xBF, 0xB0, 0xB1, 0x03, 0x13, 0x53, 0x43, 0xD3,
   0x04, 0x24, 0x44, 0x64, 0x84, 0xA4, 0xC4, 0xE4,
   0xB3, 0xE8, 0xE9, 0xEA, 0xEB, 0xEC, 0xED, 0xEE,
   0xEF, 0xF6, 0xE6, 0xC6, 0x96, 0x26, 0x36, 0x46,
   0x56, 0xB6, 0x76, 0x16, 0x86, 0x12, 0x32, 0x52,
   0x72, 0x92, 0xB2, 0xD2, 0xF2, 0x14, 0x34, 0x54,
   0x74, 0x94, 0xB4, 0xD4, 0xF4, 0x83, 0x93, 0x08,
   0x02, 0x88, 0x98, 0x09, 0x0A, 0x39, 0x3A, 0x99,
   0x9A, 0x89, 0x8A, 0x80, 0x81, 0x90, 0x91, 0xA3,
   0xE3, 0x0C, 0x0D, 0x0E, 0x0F, 0x3C, 0x3D, 0x3E,
   0x3F, 0x8C, 0x8D, 0x8E, 0x8F, 0x9C, 0x9D, 0x9E,
   0x9F]

/-- The cycle count `cy` of each opcode, split out of the C switch of
`i8048_exec` case for case: every other opcode leaves the initial
`cy = 1`. -/
def opcode_cycles (op : Nat) : Nat :=
  if op ∈ two_cycle_ops then 2 else 1

theorem opcode_cycles_bounds (op : Nat) :
    1 ≤ opcode_cycles op ∧ opcode_cycles op ≤ 2 := by
  unfold opcode_cycles
  split <;> simp

/-- One iteration of the timer-prescaler drain loop body. -/
def timer_tick_once (c : I8048) : I8048 :=
  let c1 := { c with tpre := c.tpre - 32 }
  let t := (c1.timer + 1) % 256
  if t = 0 then
    { c1 with
      timer := t
      timer_ovf := true
      irq_pend := if c1.tcnti_en ∧ c1.irq_en ∧ ¬c1.in_irq then true else c1.irq_pend }
  else { c1 with timer := t }

theorem timer_tick_once_tpre (c : I8048) : (timer_tick_once c).tpre = c.tpre - 32 := by
  by_cases h : (c.timer + 1) % 256 = 0 <;> simp [timer_tick_once, h]

/-- Timer-prescaler drain: `while (tpre >= 32) { tpre -= 32; timer++ ... }`. -/
def timer_ticks (c : I8048) : I8048 :=
  if _h : 32 ≤ c.tpre then timer_ticks (timer_tick_once c) else c
termination_by c.tpre.toNat
decreasing_by
  rw [timer_tick_once_tpre]
  omega

/-- `i8048_exec`: fetch an opcode, execute it, account cycles, run the
timer prescaler, the post-EI delay decrement and the IRQ dispatch check. -/
def i8048_exec (s : AVState) : AVState × Nat :=
  let op := ft_val s.cpu
  let s1 : AVState := { s with cpu := ft_adv s.cpu }
  let s2 := exec_op op s1
  let cy := opcode_cycles op
  let c0 := s2.cpu
  let c1 := { c0 with cycles := c0.cycles + cy }
  let c2 := if c1.timer_en then timer_ticks { c1 with tpre := c1.tpre + (cy : Int) } else c1
  let c3 := if 0 < c2.ei_delay then { c2 with ei_delay := c2.ei_delay - 1 } else c2
  let c4 :=
    if c3.irq_pend ∧ c3.irq_en ∧ ¬c3.in_irq ∧ c3.ei_delay = 0 then
      { push8 (bpsw { c3 with irq_pend := false, in_irq := true, irq_en := false }) with
        PC := 0x007 }
    else c3
  ({ s2 with cpu := c4 }, cy)

theorem i8048_exec_cy (s : AVState) :
    (i8048_exec s).2 = opcode_cycles (ft_val s.cpu) := rfl

/-! ## Frame step (`av_run_frame`) -/

/-- T1 rising-edge handling of the frame loop: record the sync cycle
and reset the LED column counter, once per frame. -/
def tick_sync (av : AVState) (prev_t1 new_t1 : Bool) (elapsed : Nat) : AVState :=
  if ¬prev_t1 ∧ new_t1 ∧ ¬av.disp_sync_seen then
    { av with
      disp_sync_cycle := (elapsed : Int)
      disp_sync_seen := true
      disp := { av.disp with led_col := 0 } }
  else av

/-- Mid-frame column capture of the frame loop (fallback path only). -/
def tick_capture (av : AVState) (elapsed : Nat) : AVState :=
  if av.midframe_scan ∧ ¬av.disp.led_active ∧ av.disp_sync_seen then
    let de := (elapsed : Int) - av.disp_sync_cycle
    if 0 ≤ de ∧ de ≤ 2550 then
      let col := de * 150 / 2550
      if 0 ≤ col ∧ col < 150 then
        { av with disp := disp_capture_column av.disp av.cpu.xram col }
      else av
    else av
  else av

/-- Counter-mode timer increment on a T1 falling edge. -/
def tick_counter (av : AVState) (prev_t1 new_t1 : Bool) : AVState :=
  if av.cpu.counter_en ∧ prev_t1 ∧ ¬new_t1 then
    let t := (av.cpu.timer + 1) % 256
    let c := { av.cpu with timer := t }
    let c :=
      if t = 0 then
        { c with
          timer_ovf := true
          irq_pend := if c.tcnti_en ∧ c.irq_en ∧ ¬c.in_irq then true else c.irq_pend }
      else c
    { av with cpu := c }
  else av

/-- One iteration of the frame-loop body of `av_run_frame`, applied after
the instruction has executed: T1 recomputation from the pulse window,
sync-edge detection, mid-frame column capture, counter-mode timer
increment on a T1 falling edge, and the T1 latch. -/
def frame_tick (av : AVState) (prev_t1 : Bool) (elapsed : Nat) : AVState :=
  let new_t1 : Bool :=
    !(decide (av.t1_pulse_start ≤ (elapsed : Int)) && decide ((elapsed : Int) < av.t1_pulse_end))
  let av := tick_sync av prev_t1 new_t1 elapsed
  let av := tick_capture av elapsed
  let av := tick_counter av prev_t1 new_t1
  { av with cpu := { av.cpu with t1 := new_t1 } }

/-- The `while (elapsed < total)` loop of `av_run_frame`: sample T1,
execute one instruction, accumulate its cycles, run the frame tick.
Returns the final state together with the loop's final `elapsed`. -/
def frame_loop (av : AVState) (elapsed total : Nat) : AVState × Nat :=
  if _h : elapsed < total then
    let prev_t1 := av.cpu.t1
    let r := i8048_exec av
    let elapsed2 := elapsed + r.2
    frame_loop (frame_tick r.1 prev_t1 elapsed2) elapsed2 total
  else (av, elapsed)
termination_by total - elapsed
decreasing_by
  have hb := opcode_cycles_bounds (ft_val av.cpu)
  rw [i8048_exec_cy]
  omega

/-- The per-frame display-state reset at the top of `av_run_frame`. -/
def frame_start (av : AVState) : AVState :=
  { av with
    disp_sync_seen := false
    disp_sync_cycle := 0
    disp := { av.disp with led_reg := fun _ => 0xFF, led_col := 0, led_active := false } }

/-- `av_run_frame`: reset the per-frame display state, run the CPU loop
with the 48,889-cycle budget, apply the whole-frame fallback capture,
then the end-of-frame display update.  The second component is the
loop's final `elapsed`, i.e. the number of machine cycles actually
executed this frame, exposed for specification purposes.  The debugger
early-return (inactive in normal operation) and the rewind-ring push
(which reads but never writes core state) are not modelled. -/
def av_run_frame (av : AVState) : AVState × Nat :=
  let r := frame_loop (frame_start av) 0 48889
  let av := r.1
  let av :=
    if ¬av.disp.led_active ∧ ¬av.midframe_scan then
      { av with disp :=
          (List.range 150).foldl (fun d col => disp_capture_column d av.cpu.xram (col : Int)) av.disp }
    else av
  let av := { av with disp := disp_update av.disp av.cfg_phosphor }
  ({ av with frame_count := av.frame_count + 1 }, r.2)

/-! ## Savestate (`load_state`) -/

/-- Model of a C `float` decoded from a savestate blob: a finiteness
flag plus an exact rational payload.  NaN and ±Inf carry
`finite := false`; the loader replaces every non-finite value before it
can be used, so their payload never matters. -/
structure FloatVal where
  finite : Bool
  val : ℚ

/-- One serialized step record of the blob. -/
structure BlobStep where
  freq : FloatVal
  noise : Bool
  dur_ms : Int
  volume : FloatVal

/-- The raw in-memory step produced by `fread` before sanitisation. -/
def blob_step_raw (b : BlobStep) : SndStep :=
  ⟨b.freq.val, b.noise, b.dur_ms, b.volume.val⟩

/-- A savestate blob, at the granularity of the `fread` calls of
`load_state`: decoded header, the number `nread` of field reads that
succeed before the stream runs out, and the decoded value of every
field in stream order. -/
structure Blob where
  has_magic : Bool
  magic : Nat
  has_ver : Bool
  ver : Nat
  nread : Nat
  rA : Nat
  rPC : Nat
  rPSW : Nat
  rSP : Nat
  rflags : Nat
  rflags2 : Nat
  rtimer : Nat
  rP1 : Nat
  rP2 : Nat
  rBUS : Nat
  riram : Nat → Nat
  rxram : Nat → Nat
  rtpre : Nat
  rcycles : Nat
  rctrl_loop : Nat
  rctrl_vol : Nat
  rctrl_fast : Nat
  rproto_state : Nat
  rproto_hi : Nat
  rlfsr : Nat
  ractive : Nat
  ris_noise : Nat
  rcommand : Nat
  rcur_freq : FloatVal
  rcur_vol : FloatVal
  rphase_acc : Nat
  rphase_inc : Nat
  rcur_step : Int
  rstep_count : Int
  rstep_samples_left : Int
  rsegment : Int
  rseg_samples_left : Int
  rseg_samples_total : Int
  rseg1_vol : FloatVal
  rseg2_vol : FloatVal
  rsteps : Nat → BlobStep

/-- Number of `fread` calls after the magic/version header. -/
def SAVE_READS : Nat := 36

/-- Effect of the `i`-th successful field `fread` of `load_state` on the
`(cpu, snd)` sub-state — the only state those reads touch.  Reads 4 and
5 (`flags`, `flags2`) land in C locals and are applied only after the
`ok` check, so they change nothing here.  Read 12 converts the stored
uint32 to a (two's-complement) `int`. -/
def applySet (p : I8048 × COP411L) (b : Blob) (i : Nat) : I8048 × COP411L :=
  if i = 0 then ({ p.1 with A := b.rA }, p.2)
  else if i = 1 then ({ p.1 with PC := b.rPC }, p.2)
  else if i = 2 then ({ p.1 with PSW := b.rPSW }, p.2)
  else if i = 3 then ({ p.1 with SP := b.rSP }, p.2)
  else if i = 4 then p
  else if i = 5 then p
  else if i = 6 then ({ p.1 with timer := b.rtimer }, p.2)
  else if i = 7 then ({ p.1 with P1 := b.rP1 }, p.2)
  else if i = 8 then ({ p.1 with P2 := b.rP2 }, p.2)
  else if i = 9 then ({ p.1 with BUS := b.rBUS }, p.2)
  else if i = 10 then ({ p.1 with iram := b.riram }, p.2)
  else if i = 11 then ({ p.1 with xram := b.rxram }, p.2)
  else if i = 12 then
    ({ p.1 with tpre := if b.rtpre < 2 ^ 31 then (b.rtpre : Int) else (b.rtpre : Int) - 2 ^ 32 }, p.2)
  else if i = 13 then ({ p.1 with cycles := b.rcycles }, p.2)
  else if i = 14 then (p.1, { p.2 with ctrl_loop := b.rctrl_loop })
  else if i = 15 then (p.1, { p.2 with ctrl_vol := b.rctrl_vol })
  else if i = 16 then (p.1, { p.2 with ctrl_fast := b.rctrl_fast })
  else if i = 17 then (p.1, { p.2 with proto_state := b.rproto_state })
  else if i = 18 then (p.1, { p.2 with proto_hi := b.rproto_hi })
  else if i = 19 then (p.1, { p.2 with lfsr := b.rlfsr })
  else if i = 20 then (p.1, { p.2 with active := b.ractive ≠ 0 })
  else if i = 21 then (p.1, { p.2 with is_noise := b.ris_noise ≠ 0 })
  else if i = 22 then (p.1, { p.2 with command := b.rcommand })
  else if i = 23 then (p.1, { p.2 with cur_freq := b.rcur_freq.val })
  else if i = 24 then (p.1, { p.2 with cur_vol := b.rcur_vol.val })
  else if i = 25 then (p.1, { p.2 with phase_acc := b.rphase_acc })
  else if i = 26 then (p.1, { p.2 with phase_inc := b.rphase_inc })
  else if i = 27 then (p.1, { p.2 with cur_step := b.rcur_step })
  else if i = 28 then (p.1, { p.2 with step_count := b.rstep_count })
  else if i = 29 then (p.1, { p.2 with step_samples_left := b.rstep_samples_left })
  else if i = 30 then (p.1, { p.2 with segment := b.rsegment })
  else if i = 31 then (p.1, { p.2 with seg_samples_left := b.rseg_samples_left })
  else if i = 32 then (p.1, { p.2 with seg_samples_total := b.rseg_samples_total })
  else if i = 33 then (p.1, { p.2 with seg1_vol := b.rseg1_vol.val })
  else if i = 34 then (p.1, { p.2 with seg2_vol := b.rseg2_vol.val })
  else if i = 35 then (p.1, { p.2 with steps := fun si => blob_step_raw (b.rsteps si) })
  else p

/-- Apply the first `n` field reads in stream order. -/
def applyReads (p : I8048 × COP411L) (b : Blob) : Nat → I8048 × COP411L
  | 0 => p
  | n + 1 => applySet (applyReads p b n) b n

/-- The sanitisation of one loaded step record (body of the
`for si < step_count` loop of `load_state`). -/
def sanStep (st : BlobStep) : SndStep :=
  let freq : ℚ := if ¬st.freq.finite ∨ st.freq.val < 0 then 0 else st.freq.val
  let vol0 : ℚ := if ¬st.volume.finite then 0 else st.volume.val
  let vol1 : ℚ := if vol0 < 0 then 0 else vol0
  let vol : ℚ := if 2 < vol1 then 1 else vol1
  ⟨freq, st.noise, if st.dur_ms < 0 then 1 else st.dur_ms, vol⟩

/-- Unpack the `flags` and `flags2` bytes into the CPU flag bits
(applied after the `ok` check in `load_state`). -/
def load_unpack_flags (c : I8048) (flags flags2 : Nat) : I8048 :=
  { c with
    MB := flags &&& 1 = 1
    C := (flags >>> 1) &&& 1 = 1
    AC := (flags >>> 2) &&& 1 = 1
    F0 := (flags >>> 3) &&& 1 = 1
    F1 := (flags >>> 4) &&& 1 = 1
    BS := (flags >>> 5) &&& 1 = 1
    timer_en := (flags >>> 6) &&& 1 = 1
    counter_en := (flags >>> 7) &&& 1 = 1
    timer_ovf := flags2 &&& 1 = 1
    tcnti_en := (flags2 >>> 1) &&& 1 = 1
    irq_en := (flags2 >>> 2) &&& 1 = 1
    irq_pend := (flags2 >>> 3) &&& 1 = 1
    in_irq := (flags2 >>> 4) &&& 1 = 1 }

/-- Post-load CPU fixups of `load_state`: mask PC and SP, pin T0 high,
and preserve the ROM images from the pre-load backup (not serialized). -/
def load_fix_cpu (c bak : I8048) : I8048 :=
  { c with
    PC := c.PC &&& 0xFFF
    SP := c.SP &&& 7
    t0 := true
    irom := bak.irom
    erom := bak.erom }

/-- Integer-field sanitisation of the loaded sound state: LFSR un-stick,
control-register masks, protocol clamp, and the cursor/step clamps.
The C code repairs one field per `if`; only the `cur_step` clamp reads
another repaired field (`step_count`, already clamped at that point), so
the sequence fuses into one record update plus that dependency. -/
def sanitize_snd_ints (snd : COP411L) : COP411L :=
  let sc := if snd.step_count < 0 ∨ 16 < snd.step_count then 0 else snd.step_count
  { snd with
    lfsr := if snd.lfsr = 0 then 0x7FFF else snd.lfsr
    ctrl_loop := snd.ctrl_loop &&& 1
    ctrl_vol := snd.ctrl_vol &&& 3
    ctrl_fast := snd.ctrl_fast &&& 1
    proto_state := if 3 < snd.proto_state then 0 else snd.proto_state
    proto_hi := snd.proto_hi &&& 0x0F
    step_count := sc
    cur_step := if snd.cur_step < 0 ∨ sc ≤ snd.cur_step then 0 else snd.cur_step
    segment := if snd.segment < 0 ∨ 1 < snd.segment then 0 else snd.segment
    step_samples_left := if snd.step_samples_left < 0 then 0 else snd.step_samples_left
    seg_samples_left := if snd.seg_samples_left < 0 then 0 else snd.seg_samples_left
    seg_samples_total := if snd.seg_samples_total < 0 then 0 else snd.seg_samples_total }

/-- Float-field sanitisation of the loaded sound state (NaN/Inf and
range repair) and the per-step loop, followed by the final
`cop411_update_ctrl_vol`.  Receives the already-int-sanitised state, so
`snd.step_count` is the clamped count the C step loop iterates to.  The
two sequential `cur_vol` repairs keep their order via `cv`. -/
def sanitize_snd_floats (snd : COP411L) (b : Blob) : COP411L :=
  let cv : ℚ := if ¬b.rcur_vol.finite ∨ snd.cur_vol < 0 then 0 else snd.cur_vol
  cop411_update_ctrl_vol
    { snd with
      cur_freq := if ¬b.rcur_freq.finite ∨ snd.cur_freq < 0 then 0 else snd.cur_freq
      cur_vol := if 2 < cv then 1 else cv
      seg1_vol := if ¬b.rseg1_vol.finite then 1 else snd.seg1_vol
      seg2_vol := if ¬b.rseg2_vol.finite then 1/2 else snd.seg2_vol
      steps := fun si =>
        if (si : Int) < snd.step_count then sanStep (b.rsteps si) else snd.steps si }

/-- `load_state`: header checks, sequential field reads with restore of
the backed-up CPU and sound state on a short read, then flag unpacking,
masking, ROM preservation and range/NaN sanitisation on success. -/
def load_state (av : AVState) (b : Blob) : Bool × AVState :=
  if ¬(b.has_magic ∧ b.magic = 0x41563133) then (false, av)
  else if ¬(b.has_ver ∧ b.ver = 18) then (false, av)
  else
    let cpu_bak := av.cpu
    let snd_bak := av.snd
    let p := applyReads (av.cpu, av.snd) b (min b.nread SAVE_READS)
    if b.nread < SAVE_READS then
      (false, { av with cpu := cpu_bak, snd := snd_bak })
    else
      let c := load_fix_cpu (load_unpack_flags p.1 b.rflags b.rflags2) cpu_bak
      let snd := sanitize_snd_floats (sanitize_snd_ints p.2) b
      (true, { av with cpu := c, snd := snd })

/-! ## Claim theorems -/

/-- Claim C3 (counterexample): the claim says P2 = 0xA0 selects LED
register 0, but `led_reg_decode` maps P2[7:5] = 101 (5) to register 4. -/
theorem c3_counterexample : led_reg_decode 0xA0 ≠ 0 := by decide

/-- Claim C3 (amended): the LED register-select decoding maps P2 = 0xA0
(select code 101) to register index 4, and maps P2 = 0xE0 (code 111) to
no register, suppressing the LED latch. -/
theorem c3_led_decode : led_reg_decode 0xA0 = 4 ∧ led_reg_decode 0xE0 = -1 := by decide

/-- The claim C1 scenario: deliver P2 writes 0xC0, 0xE5, 0x00 to the
idle power-up state. -/
def c1_final : AVState :=
  av_port_write (av_port_write (av_port_write av_init 2 0xC0) 2 0xE5) 2 0x00

/-- Claim C1 (counterexample): after the write sequence 0xC0, 0xE5,
0x00 the dispatched command byte is `hi<<4 = 0xE0`, so the playing
pure tone is index 0 at 239.23 Hz — not in the claimed open interval
(319, 322). -/
theorem c1_freq_eval : c1_final.snd.cur_freq = 23923/100 := by
  simp +decide [c1_final, av_port_write, av_init, cop411_init, cop411_command,
    cop411_start_tone, cop411_note_freq, cop411_update_ctrl_vol]

theorem c1_counterexample :
    c1_final.snd.cur_freq = 23923/100 ∧
    ¬(319 < c1_final.snd.cur_freq ∧ c1_final.snd.cur_freq < 322) := by
  rw [c1_freq_eval]
  norm_num

/-- Claim C1 (amended): starting from the idle sound-protocol state,
the P2 write sequence 0xC0, 0xE5, 0x00 terminates the handshake on the
high nibble alone (command 0xE0), leaving the engine active, non-noise,
playing pure tone index 0 with current frequency in (239, 240) Hz. -/
theorem c1_tone_after_sequence :
    c1_final.snd.active = true ∧ c1_final.snd.is_noise = false ∧
    239 < c1_final.snd.cur_freq ∧ c1_final.snd.cur_freq < 240 := by
  have h := c1_freq_eval
  refine ⟨?_, ?_, ?_, ?_⟩
  · simp +decide [c1_final, av_port_write, av_init, cop411_init, cop411_command,
      cop411_start_tone, cop411_note_freq, cop411_update_ctrl_vol]
  · simp +decide [c1_final, av_port_write, av_init, cop411_init, cop411_command,
      cop411_start_tone, cop411_note_freq, cop411_update_ctrl_vol]
  · rw [h]; norm_num
  · rw [h]; norm_num

/-- A CPU poised at an EI opcode (0x05 in both ROM images, so the fetch
resolves to EI whichever bank P1 bit 2 selects) with a timer interrupt
already pending, interrupts enabled, and no interrupt in service. -/
def c2_state : AVState :=
  { av_init with cpu :=
      { av_init.cpu with
        irq_pend := true
        irq_en := true
        irom := fun _ => 0x05
        erom := fun _ => 0x05 } }

/-- Claim C2 (code bug): executing EI from `c2_state` dispatches to
vector 0x007 at the end of the EI instruction itself: `ei_delay` is set
to 1 by EI but decremented back to 0 before the dispatch check inside
the same `i8048_exec` call, so the documented one-instruction delay
never takes effect. -/
theorem c2_ei_dispatch_at_ei :
    ft_val c2_state.cpu = 0x05 ∧
    (i8048_exec c2_state).1.cpu.PC = 0x007 ∧
    (i8048_exec c2_state).1.cpu.in_irq = true := by decide

/-- Claim C6: soft reset preserves the three COP411L control-register
fields, clears the accumulator, PC, the 64-byte IRAM and XRAM bank 0 to
zero, refills XRAM banks 1-3 with 0xFF, and leaves both ROM images
unchanged. -/
theorem c6_reset_effects (av : AVState) :
    (av_reset av).snd.ctrl_loop = av.snd.ctrl_loop ∧
    (av_reset av).snd.ctrl_vol = av.snd.ctrl_vol ∧
    (av_reset av).snd.ctrl_fast = av.snd.ctrl_fast ∧
    (av_reset av).cpu.A = 0 ∧
    (av_reset av).cpu.PC = 0 ∧
    (∀ i, i < 64 → (av_reset av).cpu.iram i = 0) ∧
    (∀ i, i < 256 → (av_reset av).cpu.xram i = 0) ∧
    (∀ i, 256 ≤ i → i < 1024 → (av_reset av).cpu.xram i = 0xFF) ∧
    (av_reset av).cpu.irom = av.cpu.irom ∧
    (av_reset av).cpu.erom = av.cpu.erom := by
  unfold av_reset cop411_update_ctrl_vol
  refine ⟨?_, ?_, ?_, ?_, ?_, ?_, ?_, ?_, ?_, ?_⟩
  · split <;> first | rfl | (split <;> rfl)
  · split <;> first | rfl | (split <;> rfl)
  · split <;> first | rfl | (split <;> rfl)
  · rfl
  · rfl
  · intro i hi; simp [zeroCPU]
  · intro i hi; simp only [initXram]; rw [if_neg (by omega)]
  · intro i hi hi2; simp only [initXram]; rw [if_pos (by omega)]
  · rfl
  · rfl

/-- Claim C6 (witness): the reset effects evaluated at the power-up
state, at sample RAM indices. -/
theorem c6_witness :
    (av_reset av_init).cpu.A = 0 ∧ (av_reset av_init).cpu.iram 3 = 0 ∧
    (av_reset av_init).cpu.xram 5 = 0 ∧ (av_reset av_init).cpu.xram 600 = 0xFF := by
  obtain ⟨-, -, -, h4, -, h6, h7, h8, -, -⟩ := c6_reset_effects av_init
  exact ⟨h4, h6 3 (by norm_num), h7 5 (by norm_num), h8 600 (by norm_num) (by norm_num)⟩

/-- Claim C7: for MOVX A,@Rr (opcodes 0x80/0x81) the byte is read from
external RAM at `((P1 & 3) << 8) | Rr`, stored into A, and latched into
the LED register selected by decoding P2 (no latch when the decode is
invalid), leaving XRAM unchanged; with P1 = 0x03 and Rr = 0x55 the read
hits offset 0x355.  For MOVX @Rr,A (0x90/0x91) A is written to the same
banked address with no display side effect. -/
theorem c7_movx (op : Nat) (av : AVState) :
    ((op = 0x80 ∨ op = 0x81) →
      (exec_op op av).cpu.A =
        av.cpu.xram ((((av.cpu.P1 &&& 3) <<< 8) ||| (getR av.cpu (op % 2) % 256)) &&& 1023) ∧
      (exec_op op av).disp.led_reg =
        (if 0 ≤ led_reg_decode av.cpu.P2 then
          updf av.disp.led_reg (led_reg_decode av.cpu.P2).toNat
            (xram_rd av.cpu (getR av.cpu (op % 2)))
        else av.disp.led_reg) ∧
      ((exec_op op av).cpu.xram = av.cpu.xram) ∧
      (av.cpu.P1 = 3 → getR av.cpu (op % 2) = 0x55 →
        (exec_op op av).cpu.A = av.cpu.xram 0x355)) ∧
    ((op = 0x90 ∨ op = 0x91) →
      (exec_op op av).cpu.xram =
        updf av.cpu.xram ((((av.cpu.P1 &&& 3) <<< 8) ||| (getR av.cpu (op % 2) % 256)) &&& 1023)
          (av.cpu.A % 256) ∧
      (exec_op op av).disp = av.disp) := by
  constructor
  · rintro (rfl | rfl) <;>
      refine ⟨?_, ?_, ?_, ?_⟩ <;>
        simp +decide [exec_op, av_led_latch, xram_rd, xram_wr] <;>
          first
            | (split <;> rfl)
            | (intro h1 h2; rw [h1, h2]; split <;> simp <;> congr 1)
  · rintro (rfl | rfl) <;>
      exact ⟨by simp +decide [exec_op, xram_wr], by simp +decide [exec_op, xram_wr]⟩

/-- A state poised for a MOVX A,@R0 with P1 bank bits 3, R0 = 0x55,
a decodable P2 (register 4) and 0x99 planted at XRAM offset 0x355. -/
def c7_wit_av : AVState :=
  { av_init with cpu :=
      { av_init.cpu with
        P1 := 3
        P2 := 0xA0
        iram := updf av_init.cpu.iram 0 0x55
        xram := updf av_init.cpu.xram 0x355 0x99 } }

/-- Claim C7 (witness): the MOVX read at P1 = 3, R0 = 0x55 returns the
byte at 0x355 and latches it into LED register 4. -/
theorem c7_witness :
    (exec_op 0x80 c7_wit_av).cpu.A = 0x99 ∧
    (exec_op 0x80 c7_wit_av).disp.led_reg 4 = 0x99 := by
  obtain ⟨-, h2, -, h4⟩ := (c7_movx 0x80 c7_wit_av).1 (Or.inl rfl)
  constructor
  · rw [h4 (by decide) (by decide)]; decide
  · rw [h2]; decide

/-- Pointwise case analysis for folds whose step either writes the
constant 1 at single points or leaves the buffer alone. -/
theorem foldl_pointwise {α : Type} (step : (Nat → ℚ) → α → (Nat → ℚ))
    (h : ∀ f a i, step f a i = f i ∨ step f a i = 1) :
    ∀ (l : List α) (f : Nat → ℚ) (i : Nat),
      (l.foldl step f) i = f i ∨ (l.foldl step f) i = 1 := by
  intro l
  induction l with
  | nil => intro f i; exact Or.inl rfl
  | cons x xs ih =>
    intro f i
    rw [List.foldl_cons]
    rcases ih (step f x) i with h1 | h1
    · rcases h f x i with h2 | h2
      · exact Or.inl (h1.trans h2)
      · exact Or.inr (h1.trans h2)
    · exact Or.inr h1

/-- Every pixel after the set-lit phase equals its decayed value or 1. -/
theorem light_cols_cases (d : AVDisp) (cols : Nat) (f : Nat → ℚ) (i : Nat) :
    light_cols d cols f i = f i ∨ light_cols d cols f i = 1 := by
  unfold light_cols
  apply foldl_pointwise
  intro g col j
  apply foldl_pointwise
  intro g2 bi j2
  apply foldl_pointwise
  intro g3 bit j3
  dsimp only
  split
  · exact Or.inl rfl
  · split
    · unfold updq
      split
      · exact Or.inr rfl
      · exact Or.inl rfl
    · exact Or.inl rfl

/-- The decay-and-floor of a value in [0,1] stays in [0,1] when the
decay constant is in [0,1]. -/
theorem decay_px_bounds (decay v : ℚ) (hd0 : 0 ≤ decay) (hd1 : decay ≤ 1)
    (hv0 : 0 ≤ v) (hv1 : v ≤ 1) : 0 ≤ decay_px decay v ∧ decay_px decay v ≤ 1 := by
  unfold decay_px
  split
  · norm_num
  · constructor
    · exact mul_nonneg hv0 hd0
    · nlinarith

/-- Claim C9: whenever the decay constant lies in [0,1] and the
phosphor buffer lies in [0,1], every pixel of the 150×40 buffer after
the end-of-frame update equals either its decayed-and-floored previous
value or exactly 1.0, and lies in [0,1]. -/
theorem c9_phosphor (d : AVDisp) (decay : ℚ) (hd0 : 0 ≤ decay) (hd1 : decay ≤ 1)
    (hp : ∀ i, 0 ≤ d.phosphor i ∧ d.phosphor i ≤ 1) :
    ∀ i, i < 150 * 40 →
      ((disp_update d decay).phosphor i = decay_px decay (d.phosphor i) ∨
        (disp_update d decay).phosphor i = 1) ∧
      0 ≤ (disp_update d decay).phosphor i ∧ (disp_update d decay).phosphor i ≤ 1 := by
  intro i hi
  have heq : (disp_update d decay).phosphor =
      light_cols d (min d.cols_captured 150).toNat
        (fun j => if j < 150 * 40 then decay_px decay (d.phosphor j) else d.phosphor j) := rfl
  have hb := decay_px_bounds decay (d.phosphor i) hd0 hd1 (hp i).1 (hp i).2
  have hcase := light_cols_cases d (min d.cols_captured 150).toNat
      (fun j => if j < 150 * 40 then decay_px decay (d.phosphor j) else d.phosphor j) i
  rw [heq]
  rcases hcase with h1 | h1 <;> rw [h1]
  · rw [if_pos hi]
    exact ⟨Or.inl rfl, hb.1, hb.2⟩
  · exact ⟨Or.inr rfl, by norm_num, by norm_num⟩

/-- A display state with a uniform half-lit phosphor buffer. -/
def c9_wit_disp : AVDisp where
  phosphor := fun _ => 1/2
  col_data := fun _ _ => 0
  cols_captured := 0
  led_reg := fun _ => 0xFF
  led_col := 0
  led_active := false

/-- Claim C9 (witness): the phosphor-update cases evaluated at a
concrete buffer, pixel 0 and the default decay 0.45. -/
theorem c9_witness :
    ((disp_update c9_wit_disp (45/100)).phosphor 0 =
        decay_px (45/100) (c9_wit_disp.phosphor 0) ∨
      (disp_update c9_wit_disp (45/100)).phosphor 0 = 1) ∧
    0 ≤ (disp_update c9_wit_disp (45/100)).phosphor 0 ∧
    (disp_update c9_wit_disp (45/100)).phosphor 0 ≤ 1 :=
  c9_phosphor c9_wit_disp (45/100) (by norm_num) (by norm_num)
    (fun i => ⟨by norm_num [c9_wit_disp], by norm_num [c9_wit_disp]⟩) 0 (by norm_num)

/-- A P2.4 strobe preserves the captured-column bound. -/
theorem latch_cols_le (d : AVDisp) (h : d.cols_captured ≤ 150) :
    (disp_latch_led_column d).cols_captured ≤ 150 := by
  unfold disp_latch_led_column
  dsimp only
  split
  · split <;> dsimp only <;> omega
  · exact h

/-- Any number of P2.4 strobes preserves the captured-column bound. -/
theorem latch_iter_cols_le (n : Nat) :
    ∀ d : AVDisp, d.cols_captured ≤ 150 →
      (disp_latch_led_column^[n] d).cols_captured ≤ 150 := by
  induction n with
  | zero => intro d h; simpa using h
  | succ k ih =>
    intro d h
    rw [Function.iterate_succ_apply]
    exact ih _ (latch_cols_le d h)

/-- Claim C10: strobes at or beyond column 150 (and capture requests out
of range) write nothing into the snapshot buffer; both capture paths
keep the captured-column count at most 150; iterated strobes keep it at
most 150; and the end-of-frame update resets it to 0. -/
theorem c10_display_bounds (d : AVDisp) :
    (150 ≤ d.led_col →
      (disp_latch_led_column d).col_data = d.col_data ∧
      (disp_latch_led_column d).cols_captured = d.cols_captured) ∧
    (∀ i j, 150 ≤ i → (disp_latch_led_column d).col_data i j = d.col_data i j) ∧
    (d.cols_captured ≤ 150 → (disp_latch_led_column d).cols_captured ≤ 150) ∧
    (∀ xram col, d.cols_captured ≤ 150 →
      (disp_capture_column d xram col).cols_captured ≤ 150) ∧
    (∀ xram col i j, 150 ≤ i →
      (disp_capture_column d xram col).col_data i j = d.col_data i j) ∧
    (∀ n, d.cols_captured ≤ 150 →
      (disp_latch_led_column^[n] d).cols_captured ≤ 150) ∧
    (∀ decay, (disp_update d decay).cols_captured = 0) := by
  refine ⟨?_, ?_, ?_, ?_, ?_, ?_, ?_⟩
  · intro h
    unfold disp_latch_led_column
    rw [if_neg (by omega)]
    exact ⟨rfl, rfl⟩
  · intro i j hij
    unfold disp_latch_led_column
    dsimp only
    split
    · rename_i hin
      split <;> · dsimp only [updf]; rw [if_neg (by omega)]
    · rfl
  · exact latch_cols_le d
  · intro xram col h
    unfold disp_capture_column
    split
    · exact h
    · dsimp only
      split <;> · split <;> (try dsimp only) <;> omega
  · intro xram col i j hij
    unfold disp_capture_column
    split
    · rfl
    · rename_i hin
      rw [not_not] at hin
      dsimp only
      split <;>
        · split <;> dsimp only <;> rw [if_neg (by omega)]
  · exact fun n h => latch_iter_cols_le n d h
  · intro decay; rfl

/-- Claim C8: if a savestate load fails — bad magic, version mismatch,
or a short read — `load_state` reports failure and returns the state
exactly as it was before the attempt (CPU, ROMs and sound included). -/
theorem c8_load_failure_atomic (av : AVState) (b : Blob)
    (h : ¬(b.has_magic ∧ b.magic = 0x41563133) ∨ ¬(b.has_ver ∧ b.ver = 18) ∨
      b.nread < SAVE_READS) :
    load_state av b = (false, av) := by
  unfold load_state
  split_ifs with g1 g2 g3
  all_goals try rfl
  rcases h with h | h | h <;> simp_all

/-- A well-formed all-zero savestate blob. -/
def c5_blob : Blob where
  has_magic := true
  magic := 0x41563133
  has_ver := true
  ver := 18
  nread := 36
  rA := 0
  rPC := 0
  rPSW := 0
  rSP := 0
  rflags := 0
  rflags2 := 0
  rtimer := 0
  rP1 := 0
  rP2 := 0
  rBUS := 0
  riram := fun _ => 0
  rxram := fun _ => 0
  rtpre := 0
  rcycles := 0
  rctrl_loop := 0
  rctrl_vol := 0
  rctrl_fast := 0
  rproto_state := 0
  rproto_hi := 0
  rlfsr := 1
  ractive := 0
  ris_noise := 0
  rcommand := 0
  rcur_freq := ⟨true, 0⟩
  rcur_vol := ⟨true, 0⟩
  rphase_acc := 0
  rphase_inc := 0
  rcur_step := 0
  rstep_count := 0
  rstep_samples_left := 0
  rsegment := 0
  rseg_samples_left := 0
  rseg_samples_total := 0
  rseg1_vol := ⟨true, 1⟩
  rseg2_vol := ⟨true, 1⟩
  rsteps := fun _ => ⟨⟨true, 0⟩, false, 0, ⟨true, 0⟩⟩

/-- Claim C8 (witness): a blob with a wrong magic is rejected and the
power-up state survives unchanged. -/
theorem c8_witness :
    load_state av_init { c5_blob with magic := 0 } = (false, av_init) :=
  c8_load_failure_atomic av_init { c5_blob with magic := 0 } (Or.inl (by decide))

/-- Claim C5 (counterexample): the all-zero blob is accepted by
`load_state`, and afterwards `cur_step = 0` with `step_count = 0`, so
`cur_step ∈ [0, step_count)` is false — the claimed interval is empty. -/
theorem c5_counterexample :
    (load_state av_init c5_blob).1 = true ∧
    ¬(0 ≤ (load_state av_init c5_blob).2.snd.cur_step ∧
      (load_state av_init c5_blob).2.snd.cur_step <
        (load_state av_init c5_blob).2.snd.step_count) := by
  have h1 : (load_state av_init c5_blob).2.snd.cur_step = 0 := by decide
  have h2 : (load_state av_init c5_blob).2.snd.step_count = 0 := by decide
  refine ⟨by decide, ?_⟩
  rw [h1, h2]
  omega

/-- The integer sanitisation establishes the step-count/cursor bounds. -/
theorem sanitize_snd_ints_bounds (snd : COP411L) :
    0 ≤ (sanitize_snd_ints snd).step_count ∧ (sanitize_snd_ints snd).step_count ≤ 16 ∧
    0 ≤ (sanitize_snd_ints snd).cur_step ∧
    (0 < (sanitize_snd_ints snd).step_count →
      (sanitize_snd_ints snd).cur_step < (sanitize_snd_ints snd).step_count) ∧
    ((sanitize_snd_ints snd).step_count = 0 → (sanitize_snd_ints snd).cur_step = 0) := by
  unfold sanitize_snd_ints
  dsimp only
  split <;> · refine ⟨by omega, by omega, ?_, ?_, ?_⟩ <;> split <;> omega

/-- `cop411_update_ctrl_vol` only touches the volume pair. -/
theorem cop411_update_ctrl_vol_counts (snd : COP411L) :
    (cop411_update_ctrl_vol snd).step_count = snd.step_count ∧
    (cop411_update_ctrl_vol snd).cur_step = snd.cur_step := by
  unfold cop411_update_ctrl_vol
  constructor <;> · split <;> first | rfl | (split <;> rfl)

/-- The float sanitisation leaves the step count and cursor alone. -/
theorem sanitize_snd_floats_counts (snd : COP411L) (b : Blob) :
    (sanitize_snd_floats snd b).step_count = snd.step_count ∧
    (sanitize_snd_floats snd b).cur_step = snd.cur_step := by
  unfold sanitize_snd_floats
  constructor
  · rw [(cop411_update_ctrl_vol_counts _).1]
  · rw [(cop411_update_ctrl_vol_counts _).2]

/-- Claim C5 (amended): after every accepted savestate load the sound
engine satisfies `step_count ∈ [0, 16]` and `cur_step ∈ [0, step_count)`
whenever `step_count > 0`; when `step_count = 0` the cursor is pinned to
`cur_step = 0` (the interval `[0, 0)` being empty). -/
theorem c5_load_sound_bounds (av : AVState) (b : Blob)
    (h : (load_state av b).1 = true) :
    0 ≤ (load_state av b).2.snd.step_count ∧
    (load_state av b).2.snd.step_count ≤ 16 ∧
    0 ≤ (load_state av b).2.snd.cur_step ∧
    (0 < (load_state av b).2.snd.step_count →
      (load_state av b).2.snd.cur_step < (load_state av b).2.snd.step_count) ∧
    ((load_state av b).2.snd.step_count = 0 → (load_state av b).2.snd.cur_step = 0) := by
  unfold load_state
  unfold load_state at h
  split_ifs at h ⊢ with g1 g2 g3
  any_goals simp at h
  all_goals dsimp only
  all_goals rw [(sanitize_snd_floats_counts
      (sanitize_snd_ints (applyReads (av.cpu, av.snd) b (min b.nread SAVE_READS)).2) b).1,
    (sanitize_snd_floats_counts
      (sanitize_snd_ints (applyReads (av.cpu, av.snd) b (min b.nread SAVE_READS)).2) b).2]
  all_goals
    exact sanitize_snd_ints_bounds (applyReads (av.cpu, av.snd) b (min b.nread SAVE_READS)).2

/-- A blob loading four steps with the cursor on step 2. -/
def c5_blob2 : Blob := { c5_blob with rstep_count := 4, rcur_step := 2 }

/-- Claim C5 (witness): the amended bounds evaluated on an accepted
concrete blob. -/
theorem c5_witness :
    0 ≤ (load_state av_init c5_blob2).2.snd.step_count ∧
    (load_state av_init c5_blob2).2.snd.step_count ≤ 16 ∧
    0 ≤ (load_state av_init c5_blob2).2.snd.cur_step ∧
    (0 < (load_state av_init c5_blob2).2.snd.step_count →
      (load_state av_init c5_blob2).2.snd.cur_step <
        (load_state av_init c5_blob2).2.snd.step_count) ∧
    ((load_state av_init c5_blob2).2.snd.step_count = 0 →
      (load_state av_init c5_blob2).2.snd.cur_step = 0) :=
  c5_load_sound_bounds av_init c5_blob2 (by decide)

/-- The frame loop's final `elapsed` lands on the 48,889-cycle budget or
overshoots it by exactly one cycle (when the last instruction is
2-cycle), for every program and start state. -/
theorem frame_loop_elapsed_bounds (total : Nat) :
    ∀ n elapsed av, total - elapsed ≤ n → elapsed < total →
      total ≤ (frame_loop av elapsed total).2 ∧
      (frame_loop av elapsed total).2 ≤ total + 1 := by
  intro n
  induction n with
  | zero => intro elapsed av h hlt; omega
  | succ k ih =>
    intro elapsed av h hlt
    have hcy := opcode_cycles_bounds (ft_val av.cpu)
    have hcy2 : 1 ≤ (i8048_exec av).2 ∧ (i8048_exec av).2 ≤ 2 := by
      rw [i8048_exec_cy]; exact hcy
    unfold frame_loop
    rw [dif_pos hlt]
    by_cases hlt2 : elapsed + (i8048_exec av).2 < total
    · exact ih (elapsed + (i8048_exec av).2) _ (by omega) hlt2
    · unfold frame_loop
      rw [dif_neg hlt2]
      dsimp only
      omega

/-- The cycle output of `av_run_frame` is the frame loop's final
`elapsed` from the reset start state. -/
theorem av_run_frame_elapsed (av : AVState) :
    (av_run_frame av).2 = (frame_loop (frame_start av) 0 48889).2 := rfl

/-- Claim C4 (amended): every frame step executes at least 48,889 and at
most 48,890 machine cycles before the end-of-frame display update; the
budget is overshot by exactly one cycle when the final instruction of
the frame is a 2-cycle one. -/
theorem c4_frame_cycles (av : AVState) :
    48889 ≤ (av_run_frame av).2 ∧ (av_run_frame av).2 ≤ 48890 := by
  rw [av_run_frame_elapsed]
  exact frame_loop_elapsed_bounds 48889 48889 0 _ (by omega) (by omega)

/-- The invariant of the all-JNI counterexample machine: constant 0x86
ROMs, timer and counter stopped, no pending interrupt, no post-EI
delay. -/
def c4_inv (av : AVState) : Prop :=
  av.cpu.irom = (fun _ => 0x86) ∧ av.cpu.erom = (fun _ => 0x86) ∧
  av.cpu.timer_en = false ∧ av.cpu.counter_en = false ∧
  av.cpu.irq_pend = false ∧ av.cpu.ei_delay = 0

/-- The opcode 0x86 (JNI) only consumes its offset byte. -/
theorem exec_op_jni (s : AVState) : exec_op 0x86 s = { s with cpu := ft_adv s.cpu } := rfl

/-- On the counterexample machine every instruction is the 2-cycle JNI
and the invariant is preserved by `i8048_exec`. -/
theorem c4_step (av : AVState) (h : c4_inv av) :
    (i8048_exec av).2 = 2 ∧ c4_inv (i8048_exec av).1 := by
  obtain ⟨h1, h2, h3, h4, h5, h6⟩ := h
  have hop : ft_val av.cpu = 0x86 := by
    simp only [ft_val, rom_rd]
    split <;> simp [h1, h2]
  constructor
  · rw [i8048_exec_cy, hop]; decide
  · simp only [i8048_exec, hop, exec_op_jni]
    simp [ft_adv, c4_inv, h1, h2, h3, h4, h5, h6, timer_ticks]

/-- `tick_sync` never touches the CPU. -/
theorem tick_sync_cpu (av : AVState) (p q : Bool) (e : Nat) :
    (tick_sync av p q e).cpu = av.cpu := by
  unfold tick_sync
  split <;> rfl

/-- `tick_capture` never touches the CPU. -/
theorem tick_capture_cpu (av : AVState) (e : Nat) :
    (tick_capture av e).cpu = av.cpu := by
  simp only [tick_capture]
  split <;> first | rfl | (split <;> first | rfl | (split <;> rfl))

/-- With the counter stopped, `tick_counter` is the identity. -/
theorem tick_counter_stopped (av : AVState) (p q : Bool)
    (h : av.cpu.counter_en = false) : tick_counter av p q = av := by
  unfold tick_counter
  rw [if_neg (by simp [h])]

/-- `frame_tick` preserves the counterexample invariant (the counter
branch is dead because the counter is stopped). -/
theorem c4_tick (av : AVState) (p : Bool) (e : Nat) (h : c4_inv av) :
    c4_inv (frame_tick av p e) := by
  obtain ⟨h1, h2, h3, h4, h5, h6⟩ := h
  simp only [frame_tick]
  rw [tick_counter_stopped _ _ _ (by rw [tick_capture_cpu, tick_sync_cpu]; exact h4)]
  refine ⟨?_, ?_, ?_, ?_, ?_, ?_⟩ <;>
    simp [c4_inv, tick_capture_cpu, tick_sync_cpu, h1, h2, h3, h4, h5, h6]

/-- On the counterexample machine the loop's final `elapsed` keeps the
parity of its start value: every instruction costs exactly 2 cycles. -/
theorem c4_loop (n : Nat) :
    ∀ elapsed av, c4_inv av → 48889 - elapsed ≤ n → elapsed % 2 = 0 →
      (frame_loop av elapsed 48889).2 % 2 = 0 := by
  induction n with
  | zero =>
    intro elapsed av hinv h hpar
    unfold frame_loop
    rw [dif_neg (by omega)]
    exact hpar
  | succ k ih =>
    intro elapsed av hinv h hpar
    by_cases hlt : elapsed < 48889
    · have hs := c4_step av hinv
      unfold frame_loop
      rw [dif_pos hlt]
      exact ih (elapsed + (i8048_exec av).2) _
        (c4_tick _ _ _ hs.2) (by omega) (by omega)
    · unfold frame_loop
      rw [dif_neg hlt]
      exact hpar

/-- The counterexample machine: both ROM images filled with the 2-cycle
opcode 0x86 (JNI). -/
def c4_av : AVState :=
  { av_init with cpu := { av_init.cpu with irom := fun _ => 0x86, erom := fun _ => 0x86 } }

/-- Claim C4 (counterexample): on a machine whose ROM holds only 2-cycle
instructions, the frame step executes 48,890 cycles — not exactly
48,889. -/
theorem c4_counterexample : (av_run_frame c4_av).2 ≠ 48889 := by
  have heq := av_run_frame_elapsed c4_av
  have hinv : c4_inv (frame_start c4_av) := ⟨rfl, rfl, rfl, rfl, rfl, rfl⟩
  have hpar := c4_loop 48889 0 (frame_start c4_av) hinv (by omega) (by omega)
  have hb := frame_loop_elapsed_bounds 48889 48889 0 (frame_start c4_av) (by omega) (by omega)
  rw [heq]
  omega

/-- A display state saturated at 150 captured columns with the strobe
column counter already past the last column. -/
def c10_wit_disp : AVDisp where
  phosphor := fun _ => 0
  col_data := fun _ _ => 7
  cols_captured := 150
  led_reg := fun _ => 0xFF
  led_col := 200
  led_active := true

/-- Claim C10 (witness): the display bounds evaluated on a concrete
saturated state — an out-of-range strobe writes nothing, 151 further
strobes keep the count at 150, and the update clears it. -/
theorem c10_witness :
    (disp_latch_led_column c10_wit_disp).col_data = c10_wit_disp.col_data ∧
    (disp_latch_led_column c10_wit_disp).cols_captured ≤ 150 ∧
    (disp_latch_led_column^[151] c10_wit_disp).cols_captured ≤ 150 ∧
    (disp_update c10_wit_disp (1/2)).cols_captured = 0 := by
  have h := c10_display_bounds c10_wit_disp
  exact ⟨(h.1 (by decide)).1, h.2.2.1 (by decide),
    h.2.2.2.2.2.1 151 (by decide), h.2.2.2.2.2.2 (1/2)⟩
